import Mathlib

/-!
Shallow embedding of the catalog-reconciliation core of `manga-automation.js`
(the repository ships two versions of the script in one file: v6.2 and v7.0).

Modelling conventions:
  - Timestamps are instants, modelled as `Nat`.  The WIB (GMT+7) conversion
    helpers `getWIBTimestamp` / `convertToWIB` only change the textual
    representation of an instant, never the instant itself, so `convertToWIB`
    is dropped and `getWIBTimestamp` reads the run's clock from the
    environment.
  - JavaScript objects used as maps (`chapters`) are association lists with
    unique keys; JS `obj[k]` is `List.lookup`.
  - Fields that may be `undefined` in JS are `Option`; the JS truthiness test
    on a number is `≠ 0` on the `some` case.
  - `fs`, `git log` and `statSync` are collaborator fields of an `Env`
    record; a call that may throw returns `Except Unit _`, a call that may
    return an empty result returns `Option _` inside.
  - Array.prototype.sort with a numeric comparator is `List.mergeSort` with
    the corresponding boolean order.
-/

/-- A decimal digit character, the regex character class of digits
(code points 48 to 57). -/
def isDig (c : Char) : Bool := decide (48 ≤ c.toNat) && decide (c.toNat ≤ 57)

/-- Splits a character list at every dot, the way the regex
`^\d+(\.\d+)?$` decomposes its subject into digit groups. -/
def splitDot : List Char → List (List Char)
  | [] => [[]]
  | c :: cs =>
    if c = '.' then [] :: splitDot cs
    else
      match splitDot cs with
      | [] => [[c]]
      | g :: gs => (c :: g) :: gs

/-- Source `isOneshotFolder`: `folderName.toLowerCase() === 'oneshot'`.
JS `toLowerCase` on the relevant code points is the ASCII lowering
performed by `Char.toLower`. -/
def isOneshotFolder (folderName : String) : Bool :=
  folderName.toList.map Char.toLower == "oneshot".toList

/-- Source `isNumericChapter`: the regex test `^\d+(\.\d+)?$`
(one nonempty digit group, optionally a dot and a second nonempty
digit group). -/
def isNumericChapter (folderName : String) : Bool :=
  match splitDot folderName.toList with
  | [a] => !a.isEmpty && a.all isDig
  | [a, b] => !a.isEmpty && a.all isDig && !b.isEmpty && b.all isDig
  | _ => false

/-- Value of a digit string, most significant digit first. -/
def digitsToNat (cs : List Char) : Nat :=
  cs.foldl (fun a c => a * 10 + (c.toNat - 48)) 0

/-- JS `parseFloat` on the strings accepted by `isNumericChapter`
(integer part, optional fractional part).  On other inputs JS yields
`NaN`, which only ever feeds the sort comparator; those inputs are
mapped to `0` here and no claim depends on their relative order. -/
def parseFloat (s : String) : Rat :=
  match splitDot s.toList with
  | [a] => (digitsToNat a : Rat)
  | [a, b] => (digitsToNat a : Rat) + (digitsToNat b : Rat) / ((10 : Rat) ^ b.length)
  | _ => 0

/-- Source `getChapterSortValue`: `-1` for the oneshot folder, else
`parseFloat(folderName)`. -/
def getChapterSortValue (folderName : String) : Rat :=
  if isOneshotFolder folderName then -1 else parseFloat folderName

/-- Source `getChapterTitle`. -/
def getChapterTitle (folderName : String) : String :=
  if isOneshotFolder folderName then "Oneshot" else "Chapter " ++ folderName

/-- Source `getChapterNumber`: `0` for oneshot, else `parseFloat`. -/
def getChapterNumber (folderName : String) : Rat :=
  if isOneshotFolder folderName then 0 else parseFloat folderName

/-- A parsed `manifest.json`: any of the accepted page-count fields may be
absent, and the pages array may be absent. -/
structure Manifest where
  total_pages : Option Nat
  totalPages : Option Nat
  pages : Option (List String)

/-- JS `x || y` for a possibly-undefined number `x`: `undefined` and `0`
are falsy and fall through to `y`. -/
def jsOrNat : Option Nat → Nat → Nat
  | some n, y => if n = 0 then y else n
  | none, y => y

/-- The per-run collaborator snapshot: the root directory listing (all
directories, hidden ones included, and the non-directory entries), the
manifest loader, the two `git log` queries (which may throw, or succeed
with no output), the `statSync` mtime (which may throw), and the run's
wall clock. -/
structure Env where
  dirs : List String
  files : List String
  manifests : String → Option Manifest
  gitLogManifest : String → Except Unit (Option Nat)
  gitLogFolder : String → Except Unit (Option Nat)
  statMtime : String → Except Unit Nat
  now : Nat

/-- Source `getWIBTimestamp`: the current wall-clock instant. -/
def getWIBTimestamp (env : Env) : Nat := env.now

/-- Source `getTotalPagesFromManifest`: `manifest.total_pages ||
manifest.totalPages || (manifest.pages ? manifest.pages.length : 0)`,
and `0` when `loadManifest` returned null (file missing or unparsable). -/
def getTotalPagesFromManifest (env : Env) (folderName : String) : Nat :=
  match env.manifests folderName with
  | some manifest =>
    jsOrNat manifest.total_pages
      (jsOrNat manifest.totalPages
        (match manifest.pages with
         | some ps => ps.length
         | none => 0))
  | none => 0

/-- JS `name.startsWith('.')`: the first character is a dot. -/
def startsWithDot (n : String) : Bool := n.toList.head? == some '.'

/-- Source `getChapterFolders`: directories of the root, hidden names
dropped, kept when numeric or oneshot, sorted by `getChapterSortValue`. -/
def getChapterFolders (env : Env) : List String :=
  (((env.dirs.filter (fun n => !startsWithDot n)).filter
      (fun n => isNumericChapter n || isOneshotFolder n)).mergeSort
    (fun a b => decide (getChapterSortValue a ≤ getChapterSortValue b)))

/-- Source `checkIfFolderExists`: `fs.existsSync(path.join('.', folderName))`,
true for any root entry of that name, directory or not. -/
def checkIfFolderExists (env : Env) (folderName : String) : Bool :=
  env.dirs.contains folderName || env.files.contains folderName

/-- The body of the `try` block of `getUploadDate`: when not locked, the
manifest-file `git log` query first (a throw propagates, a nonempty
result returns); then the folder `git log` query; then the folder's
mtime.  Identical in v6.2 and v7.0. -/
def getUploadDateTry (env : Env) (folderName : String) (isLocked : Bool) :
    Except Unit Nat :=
  let fromFolder : Except Unit Nat :=
    match env.gitLogFolder folderName with
    | Except.error e => Except.error e
    | Except.ok (some t) => Except.ok t
    | Except.ok none =>
      match env.statMtime folderName with
      | Except.error e => Except.error e
      | Except.ok m => Except.ok m
  if isLocked then fromFolder
  else
    match env.gitLogManifest folderName with
    | Except.error e => Except.error e
    | Except.ok (some t) => Except.ok t
    | Except.ok none => fromFolder

/-- Source `getUploadDate`: the `try` block above, with the single
`catch` answering the current wall-clock time. -/
def getUploadDate (env : Env) (folderName : String) (isLocked : Bool) : Nat :=
  match getUploadDateTry env folderName isLocked with
  | Except.ok t => t
  | Except.error _ => getWIBTimestamp env

/-- Modelled from the spec's words for comparison in claim C5: the four
sources tried strictly in order, where a failure at any step (throw or
empty result alike) only skips to the next fallback. -/
def resolveUploadDateOrdered (env : Env) (folderName : String) (isLocked : Bool) :
    Nat :=
  let step1 : Option Nat :=
    if isLocked then none
    else
      match env.gitLogManifest folderName with
      | Except.ok (some t) => some t
      | _ => none
  match step1 with
  | some t => t
  | none =>
    match env.gitLogFolder folderName with
    | Except.ok (some t) => t
    | _ =>
      match env.statMtime folderName with
      | Except.ok m => m
      | _ => getWIBTimestamp env

/-- The configuration fields the core reads: the locked-chapter list and
the optional initial view counter.  The remaining fields are opaque
metadata copied through unchanged and play no part in the claims. -/
structure Config where
  lockedChapters : List String
  views : Option Nat

/-- A chapter record of the previous catalog, the fields the core reads:
`uploadDate` (absent or empty modelled as `none`), `views` and `locked`. -/
structure OldChapter where
  uploadDate : Option Nat
  views : Option Int
  locked : Bool

/-- The `manga` object of the previous catalog (only its `views` field is
read by the core). -/
structure OldManga where
  views : Option Nat

/-- The previous catalog document `manga.json`, possibly lacking its
`manga` object. -/
structure OldMangaData where
  manga : Option OldManga
  chapters : List (String × OldChapter)

/-- Source `getOldChapterViews` of v6.2: `oldChapter && oldChapter.views`
is a truthiness test, so a stored `0` falls through to the default `0`. -/
def getOldChapterViews (chapterName : String) (oldMangaData : Option OldMangaData) :
    Int :=
  match oldMangaData with
  | none => 0
  | some o =>
    match o.chapters.lookup chapterName with
    | some oldChapter =>
      match oldChapter.views with
      | some v => if v = 0 then 0 else v
      | none => 0
    | none => 0

/-- Source `getOldChapterViews` of v7.0: the test is
`oldChapter.views !== undefined`, so a stored `0` is returned as is. -/
def getOldChapterViews_v70 (chapterName : String) (oldMangaData : Option OldMangaData) :
    Int :=
  match oldMangaData with
  | none => 0
  | some o =>
    match o.chapters.lookup chapterName with
    | some oldChapter =>
      match oldChapter.views with
      | some v => v
      | none => 0
    | none => 0

/-- The diagnostic pre-pass of `generateChaptersData` (identical in both
versions): previous chapters that are locked, storage-absent and no longer
configured.  Its result feeds only console output, never the produced
chapter map. -/
def removedLockedChapters (env : Env) (config : Config)
    (oldMangaData : Option OldMangaData) : List String :=
  match oldMangaData with
  | none => []
  | some o =>
    (o.chapters.map Prod.fst).filter (fun chapterName =>
      match o.chapters.lookup chapterName with
      | some oldChapter =>
        oldChapter.locked && !checkIfFolderExists env chapterName &&
          !config.lockedChapters.contains chapterName
      | none => false)

/-- A record of the freshly generated chapter map. -/
structure Chapter where
  title : String
  chapter : Rat
  folder : String
  uploadDate : Nat
  totalPages : Nat
  pages : Nat
  locked : Bool
  views : Int

/-- The working set of `generateChaptersData` (identical in both versions):
`new Set([...allFolders, ...config.lockedChapters])` turned into an array
and sorted by `getChapterSortValue`. -/
def sortedChapterNames (env : Env) (config : Config) : List String :=
  ((getChapterFolders env ++ config.lockedChapters).dedup).mergeSort
    (fun a b => decide (getChapterSortValue a ≤ getChapterSortValue b))

/-- The `forEach` body of v6.2 `generateChaptersData` producing one record:
page count from the manifest when the folder exists, lock state from
current list membership alone, upload date kept from the previous record
for locked storage-absent chapters, views zeroed on a first run and
otherwise carried via `getOldChapterViews`. -/
def chapterEntry (env : Env) (config : Config) (oldMangaData : Option OldMangaData)
    (isFirstTime : Bool) (chapterName : String) : Chapter :=
  let folderExists := checkIfFolderExists env chapterName
  let totalPages := if folderExists then getTotalPagesFromManifest env chapterName else 0
  let isInLockedList := config.lockedChapters.contains chapterName
  let isLocked := isInLockedList
  let uploadDate :=
    if isLocked && !folderExists then
      match oldMangaData.bind (fun o => o.chapters.lookup chapterName) with
      | some oldChapter =>
        match oldChapter.uploadDate with
        | some d => d
        | none => getWIBTimestamp env
      | none => getWIBTimestamp env
    else
      if folderExists then getUploadDate env chapterName isLocked
      else getWIBTimestamp env
  let views := if isFirstTime then 0 else getOldChapterViews chapterName oldMangaData
  { title := getChapterTitle chapterName
    chapter := getChapterNumber chapterName
    folder := chapterName
    uploadDate := uploadDate
    totalPages := totalPages
    pages := totalPages
    locked := isLocked
    views := views }

/-- The `forEach` body of v7.0 `generateChaptersData`: identical to v6.2
except that views always come from the v7.0 `getOldChapterViews`. -/
def chapterEntry_v70 (env : Env) (config : Config) (oldMangaData : Option OldMangaData)
    (chapterName : String) : Chapter :=
  let folderExists := checkIfFolderExists env chapterName
  let totalPages := if folderExists then getTotalPagesFromManifest env chapterName else 0
  let isInLockedList := config.lockedChapters.contains chapterName
  let isLocked := isInLockedList
  let uploadDate :=
    if isLocked && !folderExists then
      match oldMangaData.bind (fun o => o.chapters.lookup chapterName) with
      | some oldChapter =>
        match oldChapter.uploadDate with
        | some d => d
        | none => getWIBTimestamp env
      | none => getWIBTimestamp env
    else
      if folderExists then getUploadDate env chapterName isLocked
      else getWIBTimestamp env
  let views := getOldChapterViews_v70 chapterName oldMangaData
  { title := getChapterTitle chapterName
    chapter := getChapterNumber chapterName
    folder := chapterName
    uploadDate := uploadDate
    totalPages := totalPages
    pages := totalPages
    locked := isLocked
    views := views }

/-- The tail of `generateChaptersData` (identical in both versions):
collect `(folder, uploadDate, locked)` of every record, sort descending by
date, take the first date; current time when there are no chapters. -/
def lastChapterUpdateOf (env : Env) (chapters : List (String × Chapter)) : Nat :=
  let allChapterDates := chapters.map (fun p => (p.2.folder, p.2.uploadDate, p.2.locked))
  if 0 < allChapterDates.length then
    match (allChapterDates.mergeSort (fun a b => decide (b.2.1 ≤ a.2.1))).head? with
    | some d => d.2.1
    | none => getWIBTimestamp env
  else getWIBTimestamp env

/-- Source `generateChaptersData` of v6.2: the sorted working set mapped
through the record builder, paired with the derived `lastChapterUpdate`. -/
def generateChaptersData (env : Env) (config : Config)
    (oldMangaData : Option OldMangaData) (isFirstTime : Bool) :
    List (String × Chapter) × Nat :=
  let chapters := (sortedChapterNames env config).map
    (fun chapterName => (chapterName, chapterEntry env config oldMangaData isFirstTime chapterName))
  (chapters, lastChapterUpdateOf env chapters)

/-- Source `generateChaptersData` of v7.0 (no first-time flag). -/
def generateChaptersData_v70 (env : Env) (config : Config)
    (oldMangaData : Option OldMangaData) :
    List (String × Chapter) × Nat :=
  let chapters := (sortedChapterNames env config).map
    (fun chapterName => (chapterName, chapterEntry_v70 env config oldMangaData chapterName))
  (chapters, lastChapterUpdateOf env chapters)

/-- The aggregate view counter of v6.2 `commandGenerate`:
`oldMangaData && oldMangaData.manga` guards `oldMangaData.manga.views || 0`,
else `config.views || 0`. -/
def totalViews (config : Config) (oldMangaData : Option OldMangaData) : Nat :=
  match oldMangaData with
  | some o =>
    match o.manga with
    | some m => jsOrNat m.views 0
    | none => jsOrNat config.views 0
  | none => jsOrNat config.views 0

/-- The aggregate view counter of v7.0 `commandGenerate`: the guard is
`oldMangaData.manga.views !== undefined`. -/
def totalViews_v70 (config : Config) (oldMangaData : Option OldMangaData) : Nat :=
  match oldMangaData with
  | some o =>
    match o.manga with
    | some m =>
      match m.views with
      | some v => v
      | none => jsOrNat config.views 0
    | none => jsOrNat config.views 0
  | none => jsOrNat config.views 0

/-! Helper lemmas about the embedding. -/

/-- The dot-splitter never returns the empty list of groups. -/
lemma splitDot_ne_nil (l : List Char) : splitDot l ≠ [] := by
  cases l with
  | nil => simp [splitDot]
  | cons c cs =>
    unfold splitDot
    by_cases hc : c = '.'
    · simp [hc]
    · simp only [hc, if_false]
      cases splitDot cs <;> simp

/-- When the first group of the dot-split is nonempty, it starts the
original list. -/
lemma splitDot_head {l : List Char} {g : List Char} {gs : List (List Char)}
    (h : splitDot l = g :: gs) (hg : g ≠ []) : l.head? = g.head? := by
  cases l with
  | nil =>
    unfold splitDot at h
    cases h
    simp at hg
  | cons c cs =>
    unfold splitDot at h
    by_cases hc : c = '.'
    · simp only [hc, if_true] at h
      cases h
      simp at hg
    · simp only [hc, if_false] at h
      cases hsp : splitDot cs with
      | nil => rw [hsp] at h; cases h; rfl
      | cons g' gs' => rw [hsp] at h; cases h; rfl

/-- A string accepted by the numeric-chapter regex starts with a digit. -/
lemma isNumericChapter_head {t : String} (h : isNumericChapter t = true) :
    ∃ d, t.toList.head? = some d ∧ isDig d = true := by
  unfold isNumericChapter at h
  cases hsp : splitDot t.toList with
  | nil => exact absurd hsp (splitDot_ne_nil _)
  | cons a gs =>
    rw [hsp] at h
    cases gs with
    | nil =>
      simp only [Bool.and_eq_true, Bool.not_eq_true'] at h
      obtain ⟨hne, hall⟩ := h
      have hane : a ≠ [] := by
        intro hnil; rw [hnil] at hne; simp at hne
      obtain ⟨d, ds, rfl⟩ := List.exists_cons_of_ne_nil hane
      refine ⟨d, ?_, ?_⟩
      · rw [splitDot_head hsp hane]; rfl
      · exact (List.all_eq_true.mp hall) d (List.mem_cons_self _ _)
    | cons b gs' =>
      cases gs' with
      | nil =>
        simp only [Bool.and_eq_true, Bool.not_eq_true'] at h
        obtain ⟨⟨⟨hne, hall⟩, _⟩, _⟩ := h
        have hane : a ≠ [] := by
          intro hnil; rw [hnil] at hne; simp at hne
        obtain ⟨d, ds, rfl⟩ := List.exists_cons_of_ne_nil hane
        refine ⟨d, ?_, ?_⟩
        · rw [splitDot_head hsp hane]; rfl
        · exact (List.all_eq_true.mp hall) d (List.mem_cons_self _ _)
      | cons _ _ => simp at h

/-- A digit is left unchanged by ASCII lowering. -/
lemma toLower_of_isDig {d : Char} (h : isDig d = true) : Char.toLower d = d := by
  unfold isDig at h
  simp only [Bool.and_eq_true, decide_eq_true_eq] at h
  unfold Char.toLower
  rw [if_neg]
  omega

/-- A numeric chapter identifier is never the oneshot sentinel. -/
lemma numeric_not_oneshot {t : String} (h : isNumericChapter t = true) :
    isOneshotFolder t = false := by
  by_contra hb
  have hone : isOneshotFolder t = true := by
    cases hx : isOneshotFolder t
    · exact absurd hx hb
    · rfl
  unfold isOneshotFolder at hone
  have heq : t.toList.map Char.toLower = "oneshot".toList := by
    exact beq_iff_eq.mp hone
  obtain ⟨d, hd, hdig⟩ := isNumericChapter_head h
  have hhead : (t.toList.map Char.toLower).head? = some (Char.toLower d) := by
    rw [List.head?_map, hd]; rfl
  rw [heq] at hhead
  have hlow : Char.toLower d = 'o' := by
    have : some 'o' = some (Char.toLower d) := hhead
    exact (Option.some.injEq _ _ ▸ this).symm
  rw [toLower_of_isDig hdig] at hlow
  rw [hlow] at hdig
  simp [isDig] at hdig

/-- The modelled `parseFloat` is nonnegative on every input. -/
lemma parseFloat_nonneg (s : String) : 0 ≤ parseFloat s := by
  unfold parseFloat
  cases hsp : splitDot s.toList with
  | nil => simp
  | cons a gs =>
    cases gs with
    | nil => positivity
    | cons b gs' =>
      cases gs' with
      | nil => positivity
      | cons _ _ => simp

/-- Looking a key up in the pairing of a name list with a builder. -/
lemma lookup_map_pair {β : Type} (f : String → β) (names : List String) (i : String) :
    (names.map (fun n => (n, f n))).lookup i =
      if i ∈ names then some (f i) else none := by
  induction names with
  | nil => simp
  | cons n ns ih =>
    rw [List.map_cons, List.lookup_cons]
    by_cases h : i = n
    · subst h
      simp
    · have hbeq : (i == n) = false := beq_eq_false_iff_ne.mpr h
      simp only [hbeq, ih]
      by_cases hm : i ∈ ns
      · rw [if_pos hm, if_pos (List.mem_cons.mpr (Or.inr hm))]
      · rw [if_neg hm, if_neg (by simp [List.mem_cons, h, hm])]

/-- Membership of the working set is membership of the enumerated folders
or of the configured locked list. -/
lemma mem_sortedChapterNames {env : Env} {config : Config} {i : String} :
    i ∈ sortedChapterNames env config ↔
      i ∈ getChapterFolders env ∨ i ∈ config.lockedChapters := by
  unfold sortedChapterNames
  rw [(List.mergeSort_perm _ _).mem_iff, List.mem_dedup, List.mem_append]

/-- An enumerated chapter folder is an entry of the root directory. -/
lemma mem_dirs_of_mem_folders {env : Env} {i : String}
    (h : i ∈ getChapterFolders env) : i ∈ env.dirs := by
  unfold getChapterFolders at h
  rw [(List.mergeSort_perm _ _).mem_iff] at h
  exact (List.mem_filter.mp (List.mem_filter.mp h).1).1

/-- Membership of the enumerated folders, with the sort peeled off
(the merge sort is opaque to evaluation, its permutation property is
not). -/
lemma mem_getChapterFolders {env : Env} {i : String} :
    i ∈ getChapterFolders env ↔
      i ∈ (env.dirs.filter (fun n => !startsWithDot n)).filter
        (fun n => isNumericChapter n || isOneshotFolder n) :=
  (List.mergeSort_perm _ _).mem_iff

/-- An enumerated chapter folder passes the existence check. -/
lemma checkIfFolderExists_of_mem_folders {env : Env} {i : String}
    (h : i ∈ getChapterFolders env) : checkIfFolderExists env i = true := by
  unfold checkIfFolderExists
  have h1 : env.dirs.contains i = true :=
    List.elem_iff.mpr (mem_dirs_of_mem_folders h)
  rw [h1, Bool.true_or]

/-- The chapter map produced by v6.2 `generateChaptersData`, as the
pairing of the working set with the record builder. -/
lemma generateChaptersData_fst (env : Env) (config : Config)
    (oldMangaData : Option OldMangaData) (isFirstTime : Bool) :
    (generateChaptersData env config oldMangaData isFirstTime).1 =
      (sortedChapterNames env config).map
        (fun n => (n, chapterEntry env config oldMangaData isFirstTime n)) := rfl

/-- Key lookup in the generated chapter map. -/
lemma generateChaptersData_lookup (env : Env) (config : Config)
    (oldMangaData : Option OldMangaData) (isFirstTime : Bool) (i : String) :
    (generateChaptersData env config oldMangaData isFirstTime).1.lookup i =
      if i ∈ sortedChapterNames env config then
        some (chapterEntry env config oldMangaData isFirstTime i)
      else none := by
  rw [generateChaptersData_fst, lookup_map_pair]

/-- The descending merge sort used for `lastChapterUpdate` starts with a
maximal element. -/
lemma mergeSort_desc_head (l : List (String × Nat × Bool)) (hne : l ≠ []) :
    ∃ h rest, l.mergeSort (fun a b => decide (b.2.1 ≤ a.2.1)) = h :: rest ∧
      h ∈ l ∧ ∀ x ∈ l, x.2.1 ≤ h.2.1 := by
  have hperm := List.mergeSort_perm l (fun a b => decide (b.2.1 ≤ a.2.1))
  have hsorted := @List.sorted_mergeSort (String × Nat × Bool)
    (fun a b => decide (b.2.1 ≤ a.2.1))
    (fun a b c hab hbc => by
      simp only [decide_eq_true_eq] at *
      omega)
    (fun a b => by
      rcases Nat.le_total b.2.1 a.2.1 with hab | hab <;> simp [hab]) l
  have hlen : (l.mergeSort (fun a b => decide (b.2.1 ≤ a.2.1))).length = l.length :=
    hperm.length_eq
  cases hms : l.mergeSort (fun a b => decide (b.2.1 ≤ a.2.1)) with
  | nil =>
    rw [hms] at hlen
    exact absurd (List.length_eq_zero.mp hlen.symm) hne
  | cons h rest =>
    refine ⟨h, rest, rfl, ?_, ?_⟩
    · exact hperm.subset (hms ▸ List.mem_cons_self _ _)
    · intro x hx
      have hx' : x ∈ h :: rest := hms ▸ hperm.symm.subset hx
      rcases List.mem_cons.mp hx' with hxh | hxr
      · rw [hxh]
      · rw [hms] at hsorted
        have := (List.pairwise_cons.mp hsorted).1 x hxr
        simpa using this

/-- On the empty chapter map the derived timestamp is the run clock. -/
lemma lastChapterUpdateOf_nil (env : Env) :
    lastChapterUpdateOf env [] = getWIBTimestamp env := rfl

/-- On a nonempty chapter map the derived timestamp is a maximal upload
date of the map. -/
lemma lastChapterUpdateOf_max (env : Env) (chapters : List (String × Chapter))
    (hne : chapters ≠ []) :
    lastChapterUpdateOf env chapters ∈ chapters.map (fun p => p.2.uploadDate) ∧
      ∀ d ∈ chapters.map (fun p => p.2.uploadDate),
        d ≤ lastChapterUpdateOf env chapters := by
  have hdne : chapters.map (fun p => (p.2.folder, p.2.uploadDate, p.2.locked)) ≠ [] := by
    simpa [List.map_eq_nil_iff] using hne
  obtain ⟨h, rest, hms, hmem, hmax⟩ := mergeSort_desc_head _ hdne
  have hval : lastChapterUpdateOf env chapters = h.2.1 := by
    unfold lastChapterUpdateOf
    rw [if_pos (List.length_pos.mpr hdne), hms]
    rfl
  rw [hval]
  constructor
  · obtain ⟨p, hp, hph⟩ := List.mem_map.mp hmem
    exact List.mem_map.mpr ⟨p, hp, by rw [← hph]⟩
  · intro d hd
    obtain ⟨p, hp, hpd⟩ := List.mem_map.mp hd
    have := hmax (p.2.folder, p.2.uploadDate, p.2.locked)
      (List.mem_map.mpr ⟨p, hp, rfl⟩)
    rw [← hpd]
    exact this

/-! Claim theorems. -/

/-- C2: for every identity of the generated chapter map, the record's
locked flag equals membership of that identity in the current
configuration's locked list, for every previous catalog, first-time flag
and storage state alike (the rule is uniform over the oneshot identity
and numbered identities, which receive no special case). -/
theorem locked_eq_lockedList_membership (env : Env) (config : Config)
    (oldMangaData : Option OldMangaData) (isFirstTime : Bool) (i : String)
    (c : Chapter)
    (h : (generateChaptersData env config oldMangaData isFirstTime).1.lookup i = some c) :
    c.locked = config.lockedChapters.contains i ∧
      (c.locked = true ↔ i ∈ config.lockedChapters) := by
  rw [generateChaptersData_lookup] at h
  by_cases hm : i ∈ sortedChapterNames env config
  · rw [if_pos hm] at h
    injection h with h'
    subst h'
    exact ⟨rfl, List.elem_iff⟩
  · rw [if_neg hm] at h
    exact Option.noConfusion h

/-- Witness for C2 at a concrete run. -/
def envW : Env where
  dirs := ["1", "3"]
  files := ["extra"]
  manifests := fun n =>
    if n = "1" then some { total_pages := some 20, totalPages := none, pages := none }
    else none
  gitLogManifest := fun _ => Except.ok (some 42)
  gitLogFolder := fun _ => Except.ok (some 50)
  statMtime := fun _ => Except.ok 60
  now := 100

/-- Witness configuration: chapter "5" is locked. -/
def cfgW : Config := { lockedChapters := ["5"], views := some 7 }

/-- Witness previous catalog: chapter "5" was locked with date 30 and
4 views. -/
def oldW : OldMangaData where
  manga := some { views := some 11 }
  chapters := [("5", { uploadDate := some 30, views := some 4, locked := true })]

/-- Witness for C2: the locked chapter "5" of the witness run. -/
theorem locked_eq_lockedList_membership_witness :
    (chapterEntry envW cfgW (some oldW) false "5").locked =
        cfgW.lockedChapters.contains "5" ∧
      ((chapterEntry envW cfgW (some oldW) false "5").locked = true ↔
        "5" ∈ cfgW.lockedChapters) :=
  locked_eq_lockedList_membership envW cfgW (some oldW) false "5" _ (by
    rw [generateChaptersData_lookup,
      if_pos (mem_sortedChapterNames.mpr (Or.inr (by decide)))])

/-- C10: a record of the generated map whose locked flag is false always
has an existing storage entry — identities enter the working set only
from the enumerated folders or from the locked list, so storage absence
forces the locked flag. -/
theorem unlocked_implies_storage_exists (env : Env) (config : Config)
    (oldMangaData : Option OldMangaData) (isFirstTime : Bool) (i : String)
    (c : Chapter)
    (h : (generateChaptersData env config oldMangaData isFirstTime).1.lookup i = some c)
    (hl : c.locked = false) :
    checkIfFolderExists env i = true := by
  rw [generateChaptersData_lookup] at h
  by_cases hm : i ∈ sortedChapterNames env config
  · rw [if_pos hm] at h
    injection h with h'
    subst h'
    have hnot : i ∉ config.lockedChapters := by
      intro hmem
      have hc : config.lockedChapters.contains i = true := List.elem_iff.mpr hmem
      have hcl : (chapterEntry env config oldMangaData isFirstTime i).locked =
          config.lockedChapters.contains i := rfl
      rw [hcl, hc] at hl
      exact Bool.noConfusion hl
    rcases mem_sortedChapterNames.mp hm with hf | hlk
    · exact checkIfFolderExists_of_mem_folders hf
    · exact absurd hlk hnot
  · rw [if_neg hm] at h
    exact Option.noConfusion h

/-- Witness for C10: the unlocked chapter "1" of the witness run has an
existing folder. -/
theorem unlocked_implies_storage_exists_witness :
    checkIfFolderExists envW "1" = true :=
  unlocked_implies_storage_exists envW cfgW (some oldW) false "1" _ (by
    rw [generateChaptersData_lookup,
      if_pos (mem_sortedChapterNames.mpr
        (Or.inl (mem_getChapterFolders.mpr (by decide))))]) rfl

/-- C7: the page count of a generated record is 0 when the storage entry
is absent, is the manifest-derived count when it exists, and a missing
(or unparsable, hence not loaded) manifest yields 0; the embedding is a
total function, so no lookup aborts the run. -/
theorem totalPages_spec (env : Env) (config : Config)
    (oldMangaData : Option OldMangaData) (isFirstTime : Bool) (i : String)
    (c : Chapter)
    (h : (generateChaptersData env config oldMangaData isFirstTime).1.lookup i = some c) :
    (checkIfFolderExists env i = false → c.totalPages = 0) ∧
      (checkIfFolderExists env i = true →
        c.totalPages = getTotalPagesFromManifest env i) ∧
      (env.manifests i = none → getTotalPagesFromManifest env i = 0) := by
  rw [generateChaptersData_lookup] at h
  by_cases hm : i ∈ sortedChapterNames env config
  · rw [if_pos hm] at h
    injection h with h'
    subst h'
    refine ⟨?_, ?_, ?_⟩
    · intro hfe
      simp [chapterEntry, hfe]
    · intro hfe
      simp [chapterEntry, hfe]
    · intro hmi
      simp [getTotalPagesFromManifest, hmi]
  · rw [if_neg hm] at h
    exact Option.noConfusion h

/-- Witness for C7: chapter "1" of the witness run (folder exists,
manifest reports 20 pages). -/
theorem totalPages_spec_witness :
    (checkIfFolderExists envW "1" = false →
        (chapterEntry envW cfgW (some oldW) false "1").totalPages = 0) ∧
      (checkIfFolderExists envW "1" = true →
        (chapterEntry envW cfgW (some oldW) false "1").totalPages =
          getTotalPagesFromManifest envW "1") ∧
      (envW.manifests "1" = none → getTotalPagesFromManifest envW "1" = 0) :=
  totalPages_spec envW cfgW (some oldW) false "1" _ (by
    rw [generateChaptersData_lookup,
      if_pos (mem_sortedChapterNames.mpr
        (Or.inl (mem_getChapterFolders.mpr (by decide))))])

/-- C3: on a non-first run, a configured-locked identity whose storage
entry is absent gets a record with page count 0 that keeps the previous
record's upload date and views when a previous record exists, and gets
the run's current timestamp and 0 views when none does. -/
theorem lockedAbsent_preserves_history (env : Env) (config : Config)
    (oldMangaData : Option OldMangaData) (i : String)
    (hmem : i ∈ config.lockedChapters)
    (habs : checkIfFolderExists env i = false) :
    ∃ c, (generateChaptersData env config oldMangaData false).1.lookup i = some c ∧
      c.totalPages = 0 ∧
      (∀ oc d v, oldMangaData.bind (fun o => o.chapters.lookup i) = some oc →
        oc.uploadDate = some d → oc.views = some v →
        c.uploadDate = d ∧ c.views = v) ∧
      (oldMangaData.bind (fun o => o.chapters.lookup i) = none →
        c.uploadDate = getWIBTimestamp env ∧ c.views = 0) := by
  have hm : i ∈ sortedChapterNames env config :=
    mem_sortedChapterNames.mpr (Or.inr hmem)
  have hcont : config.lockedChapters.contains i = true := List.elem_iff.mpr hmem
  refine ⟨chapterEntry env config oldMangaData false i, ?_, ?_, ?_, ?_⟩
  · rw [generateChaptersData_lookup, if_pos hm]
  · simp [chapterEntry, habs]
  · intro oc d v hoc hup hv
    constructor
    · simp [chapterEntry, habs, hcont, hmem, hoc, hup]
    · cases oldMangaData with
      | none => simp at hoc
      | some o =>
        simp only [Option.some_bind] at hoc
        have hvw : getOldChapterViews i (some o) = v := by
          simp only [getOldChapterViews, hoc, hv]
          by_cases hv0 : v = 0
          · subst hv0
            simp
          · simp [hv0]
        simp [chapterEntry, hvw]
  · intro hoc
    constructor
    · simp [chapterEntry, habs, hcont, hoc]
    · cases oldMangaData with
      | none => simp [chapterEntry, getOldChapterViews]
      | some o =>
        simp only [Option.some_bind] at hoc
        simp [chapterEntry, getOldChapterViews, hoc]

/-- Witness for C3: locked absent chapter "5" of the witness run keeps
date 30 and views 4. -/
theorem lockedAbsent_preserves_history_witness :
    ∃ c, (generateChaptersData envW cfgW (some oldW) false).1.lookup "5" = some c ∧
      c.totalPages = 0 ∧
      (∀ oc d v, (some oldW).bind (fun o => o.chapters.lookup "5") = some oc →
        oc.uploadDate = some d → oc.views = some v →
        c.uploadDate = d ∧ c.views = v) ∧
      ((some oldW).bind (fun o => o.chapters.lookup "5") = none →
        c.uploadDate = getWIBTimestamp envW ∧ c.views = 0) :=
  lockedAbsent_preserves_history envW cfgW (some oldW) "5" (by decide) (by decide)

/-- C6: an oneshot identity has sort key −1, rank 0 and the fixed title,
and sorts strictly before every numeric identity, whose rank is its
parsed numeric value and whose title appends the raw identifier. -/
theorem oneshot_sorts_first (s t : String)
    (hs : isOneshotFolder s = true) (ht : isNumericChapter t = true) :
    getChapterSortValue s = -1 ∧
      getChapterNumber s = 0 ∧
      getChapterTitle s = "Oneshot" ∧
      getChapterSortValue s < getChapterSortValue t ∧
      getChapterNumber t = parseFloat t ∧
      getChapterTitle t = "Chapter " ++ t := by
  have hnos : isOneshotFolder t = false := numeric_not_oneshot ht
  refine ⟨?_, ?_, ?_, ?_, ?_, ?_⟩
  · simp [getChapterSortValue, hs]
  · simp [getChapterNumber, hs]
  · simp [getChapterTitle, hs]
  · rw [getChapterSortValue, getChapterSortValue]
    simp only [hs, hnos, if_true, if_false, Bool.false_eq_true]
    calc (-1 : Rat) < 0 := by norm_num
      _ ≤ parseFloat t := parseFloat_nonneg t
  · simp [getChapterNumber, hnos]
  · simp [getChapterTitle, hnos]

/-- Witness for C6 at the concrete identifiers "Oneshot" and "3.5". -/
theorem oneshot_sorts_first_witness :
    getChapterSortValue "Oneshot" = -1 ∧
      getChapterNumber "Oneshot" = 0 ∧
      getChapterTitle "Oneshot" = "Oneshot" ∧
      getChapterSortValue "Oneshot" < getChapterSortValue "3.5" ∧
      getChapterNumber "3.5" = parseFloat "3.5" ∧
      getChapterTitle "3.5" = "Chapter " ++ "3.5" :=
  oneshot_sorts_first "Oneshot" "3.5" (by decide) (by decide)

/-- C4: the returned `lastChapterUpdate` is a maximal upload date of the
generated chapter map, and the run's current timestamp when the map is
empty. -/
theorem lastChapterUpdate_is_max (env : Env) (config : Config)
    (oldMangaData : Option OldMangaData) (isFirstTime : Bool) :
    ((generateChaptersData env config oldMangaData isFirstTime).1 = [] →
      (generateChaptersData env config oldMangaData isFirstTime).2 =
        getWIBTimestamp env) ∧
    ((generateChaptersData env config oldMangaData isFirstTime).1 ≠ [] →
      (generateChaptersData env config oldMangaData isFirstTime).2 ∈
          (generateChaptersData env config oldMangaData isFirstTime).1.map
            (fun p => p.2.uploadDate) ∧
        ∀ d ∈ (generateChaptersData env config oldMangaData isFirstTime).1.map
            (fun p => p.2.uploadDate),
          d ≤ (generateChaptersData env config oldMangaData isFirstTime).2) := by
  have hsnd : (generateChaptersData env config oldMangaData isFirstTime).2 =
      lastChapterUpdateOf env (generateChaptersData env config oldMangaData isFirstTime).1 :=
    rfl
  constructor
  · intro h
    rw [hsnd, h]
    exact lastChapterUpdateOf_nil env
  · intro h
    rw [hsnd]
    exact lastChapterUpdateOf_max env _ h

/-- Witness for C4 on the nonempty witness run. -/
theorem lastChapterUpdate_is_max_witness :
    (generateChaptersData envW cfgW (some oldW) false).2 ∈
        (generateChaptersData envW cfgW (some oldW) false).1.map
          (fun p => p.2.uploadDate) ∧
      ∀ d ∈ (generateChaptersData envW cfgW (some oldW) false).1.map
          (fun p => p.2.uploadDate),
        d ≤ (generateChaptersData envW cfgW (some oldW) false).2 :=
  (lastChapterUpdate_is_max envW cfgW (some oldW) false).2 (by
    rw [generateChaptersData_fst]
    intro hnil
    rw [List.map_eq_nil_iff] at hnil
    have h5 : "5" ∈ sortedChapterNames envW cfgW :=
      mem_sortedChapterNames.mpr (Or.inr (by decide))
    rw [hnil] at h5
    simp at h5)

/-- The two versions of `getOldChapterViews` agree on every input: the
truthiness test of v6.2 differs from the definedness test of v7.0 only at
a stored 0, where both produce 0. -/
lemma getOldChapterViews_eq_v70 (chapterName : String)
    (oldMangaData : Option OldMangaData) :
    getOldChapterViews chapterName oldMangaData =
      getOldChapterViews_v70 chapterName oldMangaData := by
  cases oldMangaData with
  | none => rfl
  | some o =>
    simp only [getOldChapterViews, getOldChapterViews_v70]
    cases h : o.chapters.lookup chapterName with
    | none => rfl
    | some oc =>
      cases hv : oc.views with
      | none => simp [hv]
      | some v =>
        by_cases h0 : v = 0
        · subst h0
          simp [hv]
        · simp [hv, h0]

/-- The record builders of the two versions agree on non-first runs. -/
lemma chapterEntry_false_eq_v70 (env : Env) (config : Config)
    (oldMangaData : Option OldMangaData) (chapterName : String) :
    chapterEntry env config oldMangaData false chapterName =
      chapterEntry_v70 env config oldMangaData chapterName := by
  unfold chapterEntry chapterEntry_v70
  simp [getOldChapterViews_eq_v70]

/-- C9: with identical configuration, previous catalog and collaborator
snapshot, the v6.2 reconciliation on a non-first run and the v7.0
reconciliation produce the same chapter map and the same
`lastChapterUpdate`. -/
theorem generate_v62_eq_v70 (env : Env) (config : Config)
    (oldMangaData : Option OldMangaData) :
    generateChaptersData env config oldMangaData false =
      generateChaptersData_v70 env config oldMangaData := by
  unfold generateChaptersData generateChaptersData_v70
  simp only [chapterEntry_false_eq_v70]

/-- JS `x || 0` on a possibly-undefined nonnegative number is its value
with default 0. -/
lemma jsOrNat_zero (x : Option Nat) : jsOrNat x 0 = x.getD 0 := by
  cases x with
  | none => rfl
  | some n =>
    by_cases h : n = 0
    · subst h
      simp [jsOrNat]
    · simp [jsOrNat, h]

/-- C8: both versions of `commandGenerate` carry the previous catalog's
aggregate views forward unchanged when a previous catalog (with its
`manga.views` field) exists, and seed from the configuration's optional
views field, default 0, when no previous catalog exists. -/
theorem totalViews_preserved (config : Config) (oldMangaData : Option OldMangaData) :
    (∀ o m v, oldMangaData = some o → o.manga = some m → m.views = some v →
      totalViews config oldMangaData = v ∧ totalViews_v70 config oldMangaData = v) ∧
    (oldMangaData = none →
      totalViews config oldMangaData = config.views.getD 0 ∧
        totalViews_v70 config oldMangaData = config.views.getD 0) := by
  constructor
  · intro o m v ho hm hv
    subst ho
    refine ⟨?_, ?_⟩
    · simp [totalViews, hm, hv, jsOrNat_zero]
    · simp [totalViews_v70, hm, hv]
  · intro ho
    subst ho
    exact ⟨by simp [totalViews, jsOrNat_zero], by simp [totalViews_v70, jsOrNat_zero]⟩

/-- Witness for C8: preserved views 11 for an existing catalog, config
seeding for a missing catalog. -/
theorem totalViews_preserved_witness :
    (totalViews cfgW (some oldW) = 11 ∧ totalViews_v70 cfgW (some oldW) = 11) ∧
      (totalViews cfgW none = cfgW.views.getD 0 ∧
        totalViews_v70 cfgW none = cfgW.views.getD 0) :=
  ⟨(totalViews_preserved cfgW (some oldW)).1 oldW { views := some 11 } 11 rfl rfl rfl,
   (totalViews_preserved cfgW none).2 rfl⟩

/-- Counterexample run for C1: the previous catalog has an unlocked
chapter "7" whose folder has been deleted; nothing is enumerated and
nothing is configured locked. -/
def envC1 : Env where
  dirs := []
  files := []
  manifests := fun _ => none
  gitLogManifest := fun _ => Except.ok none
  gitLogFolder := fun _ => Except.ok none
  statMtime := fun _ => Except.error ()
  now := 99

/-- Counterexample configuration for C1: empty locked list. -/
def cfgC1 : Config := { lockedChapters := [], views := none }

/-- Counterexample previous catalog for C1: chapter "7" unlocked. -/
def oldC1 : OldMangaData where
  manga := some { views := some 5 }
  chapters := [("7", { uploadDate := some 10, views := some 3, locked := false })]

/-- C1 counterexample: chapter "7" is removed from the output although its
previous record was not locked, so removal is not equivalent to the
stale-lock condition. -/
theorem pruning_only_deletion_counterexample :
    ¬ (((generateChaptersData envC1 cfgC1 (some oldC1) false).1.lookup "7" = none) ↔
        ((∃ oc, oldC1.chapters.lookup "7" = some oc ∧ oc.locked = true) ∧
          checkIfFolderExists envC1 "7" = false ∧
          "7" ∉ cfgC1.lockedChapters)) := by
  intro h
  have h1 : (generateChaptersData envC1 cfgC1 (some oldC1) false).1.lookup "7" = none := by
    rw [generateChaptersData_lookup, if_neg]
    intro hm
    rcases mem_sortedChapterNames.mp hm with hf | hl
    · rw [mem_getChapterFolders] at hf
      simp [envC1] at hf
    · simp [cfgC1] at hl
  obtain ⟨⟨oc, hoc, hl⟩, -, -⟩ := h.mp h1
  have hoc' : oc = { uploadDate := some 10, views := some 3, locked := false } := by
    have hlk : oldC1.chapters.lookup "7" =
        some { uploadDate := some 10, views := some 3, locked := false } := rfl
    rw [hlk] at hoc
    exact (Option.some.inj hoc).symm
  rw [hoc'] at hl
  exact Bool.noConfusion hl

/-- C1 amended: a record of the previous catalog is absent from the newly
generated map exactly when its identity is neither among the enumerated
storage folders nor in the current locked list — its previous locked flag
plays no role, so stale-locked identities are pruned but previously
unlocked identities whose folder disappeared are removed as well. -/
theorem removal_iff_not_enumerated_not_locked (env : Env) (config : Config)
    (oldMangaData : OldMangaData) (isFirstTime : Bool) (i : String)
    (oc : OldChapter) (hprev : oldMangaData.chapters.lookup i = some oc) :
    ((generateChaptersData env config (some oldMangaData) isFirstTime).1.lookup i = none ↔
      (i ∉ getChapterFolders env ∧ i ∉ config.lockedChapters)) := by
  rw [generateChaptersData_lookup]
  constructor
  · intro hn
    by_cases hm : i ∈ sortedChapterNames env config
    · rw [if_pos hm] at hn
      exact Option.noConfusion hn
    · rw [mem_sortedChapterNames] at hm
      push_neg at hm
      exact hm
  · intro hfl
    rw [if_neg]
    intro hm
    rcases mem_sortedChapterNames.mp hm with h1 | h2
    · exact hfl.1 h1
    · exact hfl.2 h2

/-- Witness for the amended C1 at the witness run's locked chapter "5". -/
theorem removal_iff_not_enumerated_not_locked_witness :
    ((generateChaptersData envW cfgW (some oldW) false).1.lookup "5" = none ↔
      ("5" ∉ getChapterFolders envW ∧ "5" ∉ cfgW.lockedChapters)) :=
  removal_iff_not_enumerated_not_locked envW cfgW oldW false "5"
    { uploadDate := some 30, views := some 4, locked := true } rfl

/-- Counterexample environment for C5: the manifest-history query throws,
the folder-history query would succeed with 5, the clock reads 100. -/
def envC5 : Env where
  dirs := ["1"]
  files := []
  manifests := fun _ => none
  gitLogManifest := fun _ => Except.error ()
  gitLogFolder := fun _ => Except.ok (some 5)
  statMtime := fun _ => Except.ok 7
  now := 100

/-- C5 counterexample: a thrown first-step query does not skip to the next
fallback (the folder history, 5) but falls through the single catch to the
current time (100). -/
theorem uploadDate_fallback_counterexample :
    getUploadDate envC5 "1" false = 100 ∧
      resolveUploadDateOrdered envC5 "1" false = 5 ∧
      getUploadDate envC5 "1" false ≠ resolveUploadDateOrdered envC5 "1" false := by
  refine ⟨rfl, rfl, ?_⟩
  intro h
  have h100 : getUploadDate envC5 "1" false = 100 := rfl
  have h5 : resolveUploadDateOrdered envC5 "1" false = 5 := rfl
  rw [h100, h5] at h
  exact absurd h (by decide)

/-- C5 amended: when no collaborator call throws, the resolver is exactly
the ordered first-success cascade (manifest history unless locked, then
folder history, then mtime, then current time) and total; but a thrown
error at any step is caught by the single surrounding catch and yields the
current wall-clock time directly, skipping the intermediate fallbacks. -/
theorem uploadDate_ordered_when_no_throw (env : Env) (f : String) (l : Bool) :
    (∀ rm rf rs, env.gitLogManifest f = Except.ok rm →
      env.gitLogFolder f = Except.ok rf → env.statMtime f = Except.ok rs →
      getUploadDate env f l = resolveUploadDateOrdered env f l) ∧
    (l = false → env.gitLogManifest f = Except.error () →
      getUploadDate env f l = getWIBTimestamp env) ∧
    ((l = true ∨ env.gitLogManifest f = Except.ok none) →
      env.gitLogFolder f = Except.error () →
      getUploadDate env f l = getWIBTimestamp env) ∧
    ((l = true ∨ env.gitLogManifest f = Except.ok none) →
      env.gitLogFolder f = Except.ok none →
      env.statMtime f = Except.error () →
      getUploadDate env f l = getWIBTimestamp env) := by
  refine ⟨?_, ?_, ?_, ?_⟩
  · intro rm rf rs hm hf hs
    cases l with
    | false =>
      cases rm with
      | some t =>
        simp [getUploadDate, getUploadDateTry, resolveUploadDateOrdered, hm]
      | none =>
        cases rf with
        | some t =>
          simp [getUploadDate, getUploadDateTry, resolveUploadDateOrdered, hm, hf]
        | none =>
          simp [getUploadDate, getUploadDateTry, resolveUploadDateOrdered, hm, hf, hs]
    | true =>
      cases rf with
      | some t =>
        simp [getUploadDate, getUploadDateTry, resolveUploadDateOrdered, hf]
      | none =>
        simp [getUploadDate, getUploadDateTry, resolveUploadDateOrdered, hf, hs]
  · intro hl hm
    subst hl
    simp [getUploadDate, getUploadDateTry, hm, getWIBTimestamp]
  · intro hpre hf
    rcases hpre with hl | hm
    · subst hl
      simp [getUploadDate, getUploadDateTry, hf, getWIBTimestamp]
    · cases l with
      | false =>
        simp [getUploadDate, getUploadDateTry, hm, hf, getWIBTimestamp]
      | true =>
        simp [getUploadDate, getUploadDateTry, hf, getWIBTimestamp]
  · intro hpre hf hs
    rcases hpre with hl | hm
    · subst hl
      simp [getUploadDate, getUploadDateTry, hf, hs, getWIBTimestamp]
    · cases l with
      | false =>
        simp [getUploadDate, getUploadDateTry, hm, hf, hs, getWIBTimestamp]
      | true =>
        simp [getUploadDate, getUploadDateTry, hf, hs, getWIBTimestamp]

/-- Witness environment for the no-throw half of the amended C5. -/
def envW5 : Env where
  dirs := ["2"]
  files := []
  manifests := fun _ => none
  gitLogManifest := fun _ => Except.ok (some 4)
  gitLogFolder := fun _ => Except.ok (some 5)
  statMtime := fun _ => Except.ok 7
  now := 100

/-- Witness environment for the amended C5 where the folder-history query
throws (the manifest query succeeds with no output, the mtime would be
7, the clock reads 100). -/
def envC5b : Env where
  dirs := ["1"]
  files := []
  manifests := fun _ => none
  gitLogManifest := fun _ => Except.ok none
  gitLogFolder := fun _ => Except.error ()
  statMtime := fun _ => Except.ok 7
  now := 100

/-- Witness environment for the amended C5 where only the mtime query
throws (both history queries succeed with no output, the clock reads
100). -/
def envC5c : Env where
  dirs := ["1"]
  files := []
  manifests := fun _ => none
  gitLogManifest := fun _ => Except.ok none
  gitLogFolder := fun _ => Except.ok none
  statMtime := fun _ => Except.error ()
  now := 100

/-- Witness for the amended C5: all four conjuncts at concrete
collaborators — the no-throw cascade, and a throw at each of the three
steps yielding the run clock. -/
theorem uploadDate_ordered_when_no_throw_witness :
    getUploadDate envW5 "2" false = resolveUploadDateOrdered envW5 "2" false ∧
      getUploadDate envC5 "1" false = getWIBTimestamp envC5 ∧
      getUploadDate envC5b "1" false = getWIBTimestamp envC5b ∧
      getUploadDate envC5c "1" false = getWIBTimestamp envC5c :=
  ⟨(uploadDate_ordered_when_no_throw envW5 "2" false).1 (some 4) (some 5) 7 rfl rfl rfl,
   (uploadDate_ordered_when_no_throw envC5 "1" false).2.1 rfl rfl,
   (uploadDate_ordered_when_no_throw envC5b "1" false).2.2.1 (Or.inr rfl) rfl,
   (uploadDate_ordered_when_no_throw envC5c "1" false).2.2.2 (Or.inr rfl) rfl rfl⟩
